import Mathlib

/-!
Verification of the authentication flow in `src/client/src/actions/AuthActions.js`
(containing the Redux client actions `logIn`, `signUp`, `logout` and the server
controller functions `registerUser`, `loginUser`).

Modelling choices:
* A request body is a record of `Option String` fields; `none` models an absent
  field.  JavaScript truthiness of a string field (`!username`) is modelled by
  `truthy`: `none` and `some ""` are falsy, every non-empty string is truthy.
* The Mongo user collection is a `List User`; `UserModel.findOne {username}`
  is `findOne`, and `newUser.save()` appends the record, assigning the next
  `_id` as the current length of the collection.
* `bcrypt.genSalt(10)` yields a random salt, modelled as a `Nat` parameter of
  the handler.  `bcrypt.hash` embeds the salt in the resulting hash string
  (as real bcrypt does) and `bcrypt.compare` re-hashes the candidate with the
  salt parsed out of the stored hash and compares.
* `jwt.sign({username, id}, key, {expiresIn: "1h"})` is modelled by its signed
  payload `Token` (username, id, issue time, expiry = issue time + 3600 s);
  `Token.encode` is its serialized form.
* The `try`/`catch` boundary of each handler is modelled by an `Env` of flags
  saying which of the awaited library calls (hash, findOne, save, compare,
  sign) throws; a throwing step produces the 500 response of the `catch`
  block.  `Env.ok` is the environment where no call throws.
-/

/-- JavaScript truthiness of an optional string field: `undefined`/`null`
(modelled `none`) and the empty string are falsy. -/
def truthy : Option String → Bool
  | none => false
  | some s => !s.isEmpty

/-- The persisted user record (schema of `UserModel`); `_id` is assigned by
the store on save. -/
structure User where
  _id : Nat
  username : String
  password : String
  firstname : String
  lastname : String
deriving Repr, DecidableEq

namespace UserModel

/-- `UserModel.findOne({ username })`: first record in the collection with the
given username. -/
def findOne (store : List User) (username : String) : Option User :=
  store.find? (fun u => u.username == username)

end UserModel

/-- `bcrypt.hash(password, salt)`: one-way hash of the password; the salt is
embedded in the resulting string, as in real bcrypt output. -/
def bcryptHash (salt : Nat) (password : String) : String :=
  "bcrypt:" ++ toString salt ++ ":" ++ password

/-- Strip an expected prefix from a character list, failing if it is absent. -/
def stripChars : List Char → List Char → Option (List Char)
  | [], rest => some rest
  | _ :: _, [] => none
  | p :: ps, c :: cs => if p == c then stripChars ps cs else none

/-- Split a character list at the first colon: the characters before it and
the characters after it. -/
def upToColon : List Char → Option (List Char × List Char)
  | [] => none
  | c :: cs =>
    if c == ':' then some ([], cs)
    else
      match upToColon cs with
      | some (d, r) => some (c :: d, r)
      | none => none

/-- Numeric value of a non-empty list of decimal digit characters. -/
def digitsVal : List Char → Option Nat
  | [] => none
  | cs =>
    cs.foldl
      (fun acc c =>
        match acc with
        | none => none
        | some n => if c.isDigit then some (n * 10 + (c.toNat - 48)) else none)
      (some 0)

/-- Parse the salt back out of a stored bcrypt hash string. -/
def saltOf (h : String) : Option Nat :=
  match stripChars "bcrypt:".data h.data with
  | none => none
  | some rest =>
    match upToColon rest with
    | none => none
    | some (digits, _) => digitsVal digits

/-- `bcrypt.compare(candidate, stored)`: re-hash the candidate with the salt
embedded in the stored hash and compare the results. -/
def bcryptCompare (candidate stored : String) : Bool :=
  match saltOf stored with
  | some salt => stored == bcryptHash salt candidate
  | none => false

/-- The signed payload of `jwt.sign({username, id}, JWTKEY, {expiresIn: "1h"})`:
decoding the token yields exactly these claims. -/
structure Token where
  username : String
  id : Nat
  iat : Nat
  exp : Nat
deriving Repr, DecidableEq

/-- `jwt.sign` at time `now` with a one-hour expiry window. -/
def jwtSign (username : String) (id : Nat) (now : Nat) : Token :=
  { username := username, id := id, iat := now, exp := now + 3600 }

/-- Serialized form of the token string returned to the client. -/
def Token.encode (t : Token) : String :=
  "jwt." ++ t.username ++ "." ++ toString t.id ++ "." ++ toString t.exp

/-- The JSON body of `req.body` for both handlers; registration uses all four
fields, login only the first two. -/
structure ReqBody where
  username : Option String
  password : Option String
  firstname : Option String
  lastname : Option String
deriving Repr, DecidableEq

/-- The JSON value a handler responds with: `res.json({message})`,
`res.json("string")`, or `res.json({user, token})`. -/
inductive RespBody where
  | msg (m : String)
  | str (s : String)
  | userToken (u : User) (t : Token)
deriving Repr, DecidableEq

/-- An HTTP response: status code set by `res.status` plus JSON body. -/
structure Response where
  status : Nat
  body : RespBody
deriving Repr, DecidableEq

/-- Which awaited library calls throw inside the `try` block; models the
unexpected-exception behaviour caught by each handler. -/
structure Env where
  hashThrows : Bool
  findThrows : Bool
  saveThrows : Bool
  compareThrows : Bool
  signThrows : Bool
deriving Repr, DecidableEq

/-- The environment in which no library call throws. -/
def Env.ok : Env := ⟨false, false, false, false, false⟩

/-- `registerUser(req, res)`: field presence check, bcrypt hash, duplicate
check, save, token signing, with the surrounding `try`/`catch`.  Returns the
response together with the user collection after the call. -/
def registerUser (env : Env) (salt now : Nat) (store : List User)
    (body : ReqBody) : Response × List User :=
  if !(truthy body.username && truthy body.password &&
       truthy body.firstname && truthy body.lastname) then
    (⟨400, .msg "All fields are required."⟩, store)
  else if env.hashThrows then
    (⟨500, .msg "Server Error during registration"⟩, store)
  else
    let hashedPass := bcryptHash salt (body.password.getD "")
    if env.findThrows then
      (⟨500, .msg "Server Error during registration"⟩, store)
    else
      match UserModel.findOne store (body.username.getD "") with
      | some _ => (⟨400, .msg "User already exists"⟩, store)
      | none =>
        if env.saveThrows then
          (⟨500, .msg "Server Error during registration"⟩, store)
        else
          let user : User :=
            { _id := store.length
              username := body.username.getD ""
              password := hashedPass
              firstname := body.firstname.getD ""
              lastname := body.lastname.getD "" }
          let store' := store ++ [user]
          if env.signThrows then
            (⟨500, .msg "Server Error during registration"⟩, store')
          else
            (⟨200, .userToken user (jwtSign user.username user._id now)⟩, store')

/-- `loginUser(req, res)`: field presence check, lookup by username, bcrypt
compare against the stored hash, token signing, with the surrounding
`try`/`catch`.  The login handler never writes to the collection. -/
def loginUser (env : Env) (now : Nat) (store : List User)
    (body : ReqBody) : Response :=
  if !(truthy body.username && truthy body.password) then
    ⟨400, .msg "Username and password are required."⟩
  else if env.findThrows then
    ⟨500, .msg "Server Error during login"⟩
  else
    match UserModel.findOne store (body.username.getD "") with
    | none => ⟨404, .str "User not found"⟩
    | some user =>
      if env.compareThrows then
        ⟨500, .msg "Server Error during login"⟩
      else if !(bcryptCompare (body.password.getD "") user.password) then
        ⟨400, .str "Incorrect password"⟩
      else if env.signThrows then
        ⟨500, .msg "Server Error during login"⟩
      else
        ⟨200, .userToken user (jwtSign user.username user._id now)⟩

/-- A Redux action dispatched by the client thunks. -/
inductive ClientAction where
  | authStart
  | authSuccess (data : RespBody)
  | authFail
  | logOutAction
deriving Repr, DecidableEq

/-- A navigation side effect: `navigate(route, {replace})`. -/
structure NavEvent where
  route : String
  replace : Bool
deriving Repr, DecidableEq

/-- Client thunk `logIn(formData, navigate)`: dispatch `AUTH_START`, await the
API call (`some data` if it resolves, `none` if it rejects), then either
dispatch `AUTH_SUCCESS` and navigate to `/home` replacing history, or dispatch
`AUTH_FAIL` with no navigation.  Returns the dispatched actions in order and
the navigations performed. -/
def logIn (apiResult : Option RespBody) : List ClientAction × List NavEvent :=
  match apiResult with
  | some data => ([.authStart, .authSuccess data], [⟨"/home", true⟩])
  | none => ([.authStart, .authFail], [])

/-- Client thunk `signUp(formData, navigate)`: identical control flow to
`logIn`, calling the signup endpoint instead. -/
def signUp (apiResult : Option RespBody) : List ClientAction × List NavEvent :=
  match apiResult with
  | some data => ([.authStart, .authSuccess data], [⟨"/home", true⟩])
  | none => ([.authStart, .authFail], [])

/-- Client thunk `logout()`: unconditionally dispatches `LOG_OUT`, no server
round trip and no navigation. -/
def logout : List ClientAction × List NavEvent :=
  ([.logOutAction], [])

/-! ## Helper lemmas and concrete witness data -/

/-- Appending a record with the looked-up username to a collection where the
lookup fails makes the lookup find exactly that record. -/
theorem findOne_append_of_none (store : List User) (u : User) (name : String)
    (h : UserModel.findOne store name = none) (hu : (u.username == name) = true) :
    UserModel.findOne (store ++ [u]) name = some u := by
  unfold UserModel.findOne at *
  induction store with
  | nil => simp [List.find?_cons, hu]
  | cons v vs ih =>
    rw [List.cons_append]
    cases hv : (v.username == name) with
    | true =>
      have hsome : List.find? (fun x => x.username == name) (v :: vs) = some v := by
        simp [List.find?_cons, hv]
      rw [hsome] at h
      cases h
    | false =>
      have e1 : List.find? (fun x => x.username == name) (v :: vs) =
          List.find? (fun x => x.username == name) vs := by
        simp [List.find?_cons, hv]
      have e2 : List.find? (fun x => x.username == name) (v :: (vs ++ [u])) =
          List.find? (fun x => x.username == name) (vs ++ [u]) := by
        simp [List.find?_cons, hv]
      rw [e2]
      rw [e1] at h
      exact ih h

/-- The serialized token string is never empty. -/
theorem Token.encode_ne_empty (t : Token) : Token.encode t ≠ "" := by
  intro h
  have hd : (Token.encode t).data = [] := by rw [h]
  simp [Token.encode, String.data_append] at hd

/-- Concrete request body used by the witness instances. -/
def wBody : ReqBody := ⟨some "alice", some "pw123", some "A", some "L"⟩

/-- The record that registering `wBody` with salt 7 into an empty collection
persists. -/
def wUser : User := ⟨0, "alice", bcryptHash 7 "pw123", "A", "L"⟩

/-! ## Claims -/

/-- C1: for every registration request whose body has non-missing (truthy)
username, password, firstname and lastname and whose username matches no
record in the user collection, `registerUser` responds with HTTP 200 and a
body containing a user object and a non-empty token, and after the call a
lookup of that username in the user collection succeeds. -/
theorem registerUser_fresh_success (salt now : Nat) (store : List User)
    (body : ReqBody)
    (h1 : truthy body.username = true) (h2 : truthy body.password = true)
    (h3 : truthy body.firstname = true) (h4 : truthy body.lastname = true)
    (hfresh : UserModel.findOne store (body.username.getD "") = none) :
    (registerUser Env.ok salt now store body).1.status = 200 ∧
    (∃ u t, (registerUser Env.ok salt now store body).1.body =
              RespBody.userToken u t ∧ Token.encode t ≠ "") ∧
    (∃ u, UserModel.findOne (registerUser Env.ok salt now store body).2
            (body.username.getD "") = some u) := by
  have hreg : registerUser Env.ok salt now store body =
      (⟨200, RespBody.userToken
          { _id := store.length, username := body.username.getD "",
            password := bcryptHash salt (body.password.getD ""),
            firstname := body.firstname.getD "", lastname := body.lastname.getD "" }
          (jwtSign (body.username.getD "") store.length now)⟩,
       store ++
         [{ _id := store.length, username := body.username.getD "",
            password := bcryptHash salt (body.password.getD ""),
            firstname := body.firstname.getD "", lastname := body.lastname.getD "" }]) := by
    simp [registerUser, Env.ok, h1, h2, h3, h4, hfresh]
  refine ⟨by rw [hreg], ?_, ?_⟩
  · rw [hreg]
    exact ⟨_, _, rfl, Token.encode_ne_empty _⟩
  · rw [hreg]
    exact ⟨_, findOne_append_of_none store _ _ hfresh (by simp)⟩

/-- Witness for C1: registering alice into the empty collection. -/
theorem registerUser_fresh_success_witness :
    (registerUser Env.ok 7 1000 [] wBody).1.status = 200 ∧
    (∃ u t, (registerUser Env.ok 7 1000 [] wBody).1.body =
              RespBody.userToken u t ∧ Token.encode t ≠ "") ∧
    (∃ u, UserModel.findOne (registerUser Env.ok 7 1000 [] wBody).2
            (wBody.username.getD "") = some u) :=
  registerUser_fresh_success 7 1000 [] wBody (by decide) (by decide) (by decide)
    (by decide) (by decide)

/-- C2: for every login request with truthy username and password: an unknown
username yields HTTP 404; a matching record whose stored hash verifies the
supplied password yields HTTP 200 with the user and a token; a matching record
whose stored hash does not verify the supplied password yields HTTP 400. -/
theorem loginUser_status_cases (now : Nat) (store : List User) (body : ReqBody)
    (h1 : truthy body.username = true) (h2 : truthy body.password = true) :
    (UserModel.findOne store (body.username.getD "") = none →
      loginUser Env.ok now store body = ⟨404, RespBody.str "User not found"⟩) ∧
    (∀ u, UserModel.findOne store (body.username.getD "") = some u →
      bcryptCompare (body.password.getD "") u.password = true →
      loginUser Env.ok now store body =
        ⟨200, RespBody.userToken u (jwtSign u.username u._id now)⟩) ∧
    (∀ u, UserModel.findOne store (body.username.getD "") = some u →
      bcryptCompare (body.password.getD "") u.password = false →
      loginUser Env.ok now store body = ⟨400, RespBody.str "Incorrect password"⟩) := by
  refine ⟨?_, ?_, ?_⟩
  · intro hf
    simp [loginUser, Env.ok, h1, h2, hf]
  · intro u hf hc
    simp [loginUser, Env.ok, h1, h2, hf, hc]
  · intro u hf hc
    simp [loginUser, Env.ok, h1, h2, hf, hc]

/-- Witness for C2: all three login outcomes at concrete inputs. -/
theorem loginUser_status_cases_witness :
    loginUser Env.ok 1000 [wUser] wBody =
      ⟨200, RespBody.userToken wUser (jwtSign wUser.username wUser._id 1000)⟩ ∧
    loginUser Env.ok 1000 [] wBody = ⟨404, RespBody.str "User not found"⟩ ∧
    loginUser Env.ok 1000 [wUser] ⟨some "alice", some "wrong", none, none⟩ =
      ⟨400, RespBody.str "Incorrect password"⟩ :=
  ⟨(loginUser_status_cases 1000 [wUser] wBody (by decide) (by decide)).2.1 wUser
      (by decide) (by decide),
   (loginUser_status_cases 1000 [] wBody (by decide) (by decide)).1 (by decide),
   (loginUser_status_cases 1000 [wUser] ⟨some "alice", some "wrong", none, none⟩
      (by decide) (by decide)).2.2 wUser (by decide) (by decide)⟩

/-- C3: for every username already present in the collection, a registration
request for that username returns HTTP 400 with the conflict message
"User already exists" and leaves the collection unchanged; in particular,
after a successful registration a second registration of the same body fails
with that same 400 conflict response. -/
theorem registerUser_conflict (salt now : Nat) (store : List User) (body : ReqBody)
    (h1 : truthy body.username = true) (h2 : truthy body.password = true)
    (h3 : truthy body.firstname = true) (h4 : truthy body.lastname = true) :
    (∀ u, UserModel.findOne store (body.username.getD "") = some u →
      registerUser Env.ok salt now store body =
        (⟨400, RespBody.msg "User already exists"⟩, store)) ∧
    (UserModel.findOne store (body.username.getD "") = none →
      ∀ salt2 now2,
        registerUser Env.ok salt2 now2 (registerUser Env.ok salt now store body).2 body =
          (⟨400, RespBody.msg "User already exists"⟩,
           (registerUser Env.ok salt now store body).2)) := by
  constructor
  · intro u hf
    simp [registerUser, Env.ok, h1, h2, h3, h4, hf]
  · intro hfresh salt2 now2
    have hfind : UserModel.findOne (registerUser Env.ok salt now store body).2
        (body.username.getD "") =
        some { _id := store.length, username := body.username.getD "",
               password := bcryptHash salt (body.password.getD ""),
               firstname := body.firstname.getD "", lastname := body.lastname.getD "" } := by
      have hreg2 : (registerUser Env.ok salt now store body).2 =
          store ++
            [{ _id := store.length, username := body.username.getD "",
               password := bcryptHash salt (body.password.getD ""),
               firstname := body.firstname.getD "", lastname := body.lastname.getD "" }] := by
        simp [registerUser, Env.ok, h1, h2, h3, h4, hfresh]
      rw [hreg2]
      exact findOne_append_of_none store _ _ hfresh (by simp)
    generalize hs : (registerUser Env.ok salt now store body).2 = s2 at hfind ⊢
    simp [registerUser, Env.ok, h1, h2, h3, h4, hfind]

/-- Witness for C3: a conflicting registration against a concrete collection,
and the sequential double registration of alice. -/
theorem registerUser_conflict_witness :
    registerUser Env.ok 8 2000 [wUser] wBody =
      (⟨400, RespBody.msg "User already exists"⟩, [wUser]) ∧
    registerUser Env.ok 8 2000 (registerUser Env.ok 7 1000 [] wBody).2 wBody =
      (⟨400, RespBody.msg "User already exists"⟩,
       (registerUser Env.ok 7 1000 [] wBody).2) :=
  ⟨(registerUser_conflict 8 2000 [wUser] wBody (by decide) (by decide) (by decide)
      (by decide)).1 wUser (by decide),
   (registerUser_conflict 7 1000 [] wBody (by decide) (by decide) (by decide)
      (by decide)).2 (by decide) 8 2000⟩

/-- The bcrypt hash of a password is never the plaintext password itself. -/
theorem bcryptHash_ne_plaintext (salt : Nat) (pw : String) :
    bcryptHash salt pw ≠ pw := by
  intro h
  have hlen := congrArg String.length h
  simp [bcryptHash, String.length_append] at hlen
  exact absurd hlen.2 (by decide)

/-- C4: whenever `registerUser` or `loginUser` responds with a user and a
token, the token payload carries exactly that user record's username and id,
is issued at the current time, and expires exactly one hour after issuance. -/
theorem token_payload_matches_user (env env2 : Env) (salt now : Nat)
    (store store2 : List User) (body body2 : ReqBody) :
    (∀ u t, (registerUser env salt now store body).1.body = RespBody.userToken u t →
      t.username = u.username ∧ t.id = u._id ∧ t.iat = now ∧ t.exp = t.iat + 3600) ∧
    (∀ u t, (loginUser env2 now store2 body2).body = RespBody.userToken u t →
      t.username = u.username ∧ t.id = u._id ∧ t.iat = now ∧ t.exp = t.iat + 3600) := by
  constructor
  · intro u t h
    unfold registerUser at h
    split at h
    · simp at h
    · split at h
      · simp at h
      · split at h
        · simp at h
        · split at h
          · simp at h
          · split at h
            · simp at h
            · split at h
              · simp at h
              · simp only [RespBody.userToken.injEq] at h
                obtain ⟨hu, ht⟩ := h
                subst hu
                subst ht
                simp [jwtSign]
  · intro u t h
    unfold loginUser at h
    split at h
    · simp at h
    · split at h
      · simp at h
      · split at h
        · simp at h
        · split at h
          · simp at h
          · split at h
            · simp at h
            · split at h
              · simp at h
              · simp only [RespBody.userToken.injEq] at h
                obtain ⟨hu, ht⟩ := h
                subst hu
                subst ht
                simp [jwtSign]

/-- Witness for C4: the token from registering alice carries her username and
id and a one-hour expiry. -/
theorem token_payload_matches_user_witness :
    (jwtSign wUser.username wUser._id 1000).username = wUser.username ∧
    (jwtSign wUser.username wUser._id 1000).id = wUser._id ∧
    (jwtSign wUser.username wUser._id 1000).iat = 1000 ∧
    (jwtSign wUser.username wUser._id 1000).exp =
      (jwtSign wUser.username wUser._id 1000).iat + 3600 :=
  (token_payload_matches_user Env.ok Env.ok 7 1000 [] [wUser] wBody wBody).1
    wUser (jwtSign wUser.username wUser._id 1000) (by decide)

/-- C5: the record persisted by a successful registration stores the salted
bcrypt hash of the supplied password and never the plaintext, and `loginUser`
decides between 200 and 400 solely by the bcrypt comparison of the candidate
password against the stored hash. -/
theorem password_stored_hashed (salt now : Nat) (store store2 : List User)
    (body : ReqBody)
    (h1 : truthy body.username = true) (h2 : truthy body.password = true)
    (h3 : truthy body.firstname = true) (h4 : truthy body.lastname = true)
    (hfresh : UserModel.findOne store (body.username.getD "") = none) :
    (∃ u, (registerUser Env.ok salt now store body).2 = store ++ [u] ∧
      u.password = bcryptHash salt (body.password.getD "") ∧
      u.password ≠ body.password.getD "") ∧
    (∀ u, UserModel.findOne store2 (body.username.getD "") = some u →
      loginUser Env.ok now store2 body =
        (if bcryptCompare (body.password.getD "") u.password then
          ⟨200, RespBody.userToken u (jwtSign u.username u._id now)⟩
        else ⟨400, RespBody.str "Incorrect password"⟩)) := by
  constructor
  · have hreg2 : (registerUser Env.ok salt now store body).2 =
        store ++
          [{ _id := store.length, username := body.username.getD "",
             password := bcryptHash salt (body.password.getD ""),
             firstname := body.firstname.getD "", lastname := body.lastname.getD "" }] := by
      simp [registerUser, Env.ok, h1, h2, h3, h4, hfresh]
    exact ⟨_, hreg2, rfl, bcryptHash_ne_plaintext _ _⟩
  · intro u hf
    by_cases hc : bcryptCompare (body.password.getD "") u.password = true
    · simp [loginUser, Env.ok, h1, h2, hf, hc]
    · simp only [Bool.not_eq_true] at hc
      simp [loginUser, Env.ok, h1, h2, hf, hc]

/-- Witness for C5: alice's persisted record holds the bcrypt hash of pw123,
and her login outcome is decided by the bcrypt comparison. -/
theorem password_stored_hashed_witness :
    (∃ u, (registerUser Env.ok 7 1000 [] wBody).2 = [] ++ [u] ∧
      u.password = bcryptHash 7 (wBody.password.getD "") ∧
      u.password ≠ wBody.password.getD "") ∧
    loginUser Env.ok 1000 [wUser] wBody =
      (if bcryptCompare (wBody.password.getD "") wUser.password then
        ⟨200, RespBody.userToken wUser (jwtSign wUser.username wUser._id 1000)⟩
      else ⟨400, RespBody.str "Incorrect password"⟩) :=
  ⟨(password_stored_hashed 7 1000 [] [wUser] wBody (by decide) (by decide)
      (by decide) (by decide) (by decide)).1,
   (password_stored_hashed 7 1000 [] [wUser] wBody (by decide) (by decide)
      (by decide) (by decide) (by decide)).2 wUser (by decide)⟩

/-- The environment in which every library call throws; a handler that
returns a non-500 response under it never reached any library call. -/
def allThrow : Env := ⟨true, true, true, true, true⟩

/-- C6: a registration request missing any of the four required fields, or a
login request missing username or password, gets HTTP 400 with the collection
unchanged, under every environment — including `allThrow`, in which any
hashing or store call would produce a 500, so the 400 shows the handler
answered before attempting any hashing or persistent-store operation. -/
theorem missing_fields_early_400 (env : Env) (salt now : Nat)
    (store : List User) (body : ReqBody) :
    (¬(truthy body.username = true ∧ truthy body.password = true ∧
        truthy body.firstname = true ∧ truthy body.lastname = true) →
      registerUser env salt now store body =
        (⟨400, RespBody.msg "All fields are required."⟩, store)) ∧
    (¬(truthy body.username = true ∧ truthy body.password = true) →
      loginUser env now store body =
        ⟨400, RespBody.msg "Username and password are required."⟩) := by
  constructor
  · intro hmiss
    simp only [not_and_or, Bool.not_eq_true] at hmiss
    rcases hmiss with h | h | h | h <;> simp [registerUser, h]
  · intro hmiss
    simp only [not_and_or, Bool.not_eq_true] at hmiss
    rcases hmiss with h | h <;> simp [loginUser, h]

/-- Witness for C6: requests without a password are rejected with 400 and an
unchanged collection even when every library call would throw. -/
theorem missing_fields_early_400_witness :
    registerUser allThrow 7 1000 [wUser] ⟨some "alice", none, some "A", some "L"⟩ =
      (⟨400, RespBody.msg "All fields are required."⟩, [wUser]) ∧
    loginUser allThrow 1000 [wUser] ⟨some "alice", none, none, none⟩ =
      ⟨400, RespBody.msg "Username and password are required."⟩ :=
  ⟨(missing_fields_early_400 allThrow 7 1000 [wUser]
      ⟨some "alice", none, some "A", some "L"⟩).1 (by decide),
   (missing_fields_early_400 allThrow 1000 1000 [wUser]
      ⟨some "alice", none, none, none⟩).2 (by decide)⟩

/-- C7: an unexpected throw in any reached library step — hash, lookup, save
or sign for registration (all four fields present); lookup, compare or sign
for login (username and password present) — is caught at the handler boundary
and answered with the generic 500 message, while the expected conditions keep
their specific inline responses under every environment: missing fields give
their specific 400 even when every library call would throw, and in the
throw-free environment registration answers only 200/400 and login only
200/400/404, never a 500. -/
theorem unexpected_errors_give_500 (env : Env) (salt now : Nat)
    (store : List User) (body : ReqBody) :
    (truthy body.username = true → truthy body.password = true →
      truthy body.firstname = true → truthy body.lastname = true →
      env.hashThrows = true →
      registerUser env salt now store body =
        (⟨500, RespBody.msg "Server Error during registration"⟩, store)) ∧
    (truthy body.username = true → truthy body.password = true →
      truthy body.firstname = true → truthy body.lastname = true →
      env.hashThrows = false → env.findThrows = true →
      registerUser env salt now store body =
        (⟨500, RespBody.msg "Server Error during registration"⟩, store)) ∧
    (truthy body.username = true → truthy body.password = true →
      truthy body.firstname = true → truthy body.lastname = true →
      env.hashThrows = false → env.findThrows = false → env.saveThrows = true →
      UserModel.findOne store (body.username.getD "") = none →
      registerUser env salt now store body =
        (⟨500, RespBody.msg "Server Error during registration"⟩, store)) ∧
    (truthy body.username = true → truthy body.password = true →
      truthy body.firstname = true → truthy body.lastname = true →
      env.hashThrows = false → env.findThrows = false → env.saveThrows = false →
      env.signThrows = true →
      UserModel.findOne store (body.username.getD "") = none →
      (registerUser env salt now store body).1 =
        ⟨500, RespBody.msg "Server Error during registration"⟩) ∧
    (truthy body.username = true → truthy body.password = true →
      env.findThrows = true →
      loginUser env now store body =
        ⟨500, RespBody.msg "Server Error during login"⟩) ∧
    (∀ u, truthy body.username = true → truthy body.password = true →
      env.findThrows = false → env.compareThrows = true →
      UserModel.findOne store (body.username.getD "") = some u →
      loginUser env now store body =
        ⟨500, RespBody.msg "Server Error during login"⟩) ∧
    (∀ u, truthy body.username = true → truthy body.password = true →
      env.findThrows = false → env.compareThrows = false →
      env.signThrows = true →
      UserModel.findOne store (body.username.getD "") = some u →
      bcryptCompare (body.password.getD "") u.password = true →
      loginUser env now store body =
        ⟨500, RespBody.msg "Server Error during login"⟩) ∧
    (¬(truthy body.username = true ∧ truthy body.password = true ∧
        truthy body.firstname = true ∧ truthy body.lastname = true) →
      registerUser env salt now store body =
        (⟨400, RespBody.msg "All fields are required."⟩, store)) ∧
    (¬(truthy body.username = true ∧ truthy body.password = true) →
      loginUser env now store body =
        ⟨400, RespBody.msg "Username and password are required."⟩) ∧
    ((registerUser Env.ok salt now store body).1.status = 200 ∨
      (registerUser Env.ok salt now store body).1.status = 400) ∧
    ((loginUser Env.ok now store body).status = 200 ∨
      (loginUser Env.ok now store body).status = 400 ∨
      (loginUser Env.ok now store body).status = 404) := by
  refine ⟨?_, ?_, ?_, ?_, ?_, ?_, ?_, ?_, ?_, ?_, ?_⟩
  · intro h1 h2 h3 h4 hh
    simp [registerUser, h1, h2, h3, h4, hh]
  · intro h1 h2 h3 h4 hh hf
    simp [registerUser, h1, h2, h3, h4, hh, hf]
  · intro h1 h2 h3 h4 hh hf hs hfind
    simp [registerUser, h1, h2, h3, h4, hh, hf, hs, hfind]
  · intro h1 h2 h3 h4 hh hf hs hg hfind
    simp [registerUser, h1, h2, h3, h4, hh, hf, hs, hg, hfind]
  · intro h1 h2 hf
    simp [loginUser, h1, h2, hf]
  · intro u h1 h2 hf hc hfind
    simp [loginUser, h1, h2, hf, hc, hfind]
  · intro u h1 h2 hf hc hg hfind hcmp
    simp [loginUser, h1, h2, hf, hc, hg, hfind, hcmp]
  · intro hmiss
    simp only [not_and_or, Bool.not_eq_true] at hmiss
    rcases hmiss with h | h | h | h <;> simp [registerUser, h]
  · intro hmiss
    simp only [not_and_or, Bool.not_eq_true] at hmiss
    rcases hmiss with h | h <;> simp [loginUser, h]
  · cases hb : (truthy body.username && truthy body.password &&
        truthy body.firstname && truthy body.lastname) with
    | false =>
      right
      simp [registerUser, hb]
    | true =>
      cases hfind : UserModel.findOne store (body.username.getD "") with
      | none => left; simp [registerUser, Env.ok, hb, hfind]
      | some u => right; simp [registerUser, Env.ok, hb, hfind]
  · cases hb : (truthy body.username && truthy body.password) with
    | false =>
      right; left
      simp [loginUser, hb]
    | true =>
      cases hfind : UserModel.findOne store (body.username.getD "") with
      | none => right; right; simp [loginUser, Env.ok, hb, hfind]
      | some u =>
        by_cases hc : bcryptCompare (body.password.getD "") u.password = true
        · left; simp [loginUser, Env.ok, hb, hfind, hc]
        · right; left
          simp only [Bool.not_eq_true] at hc
          simp [loginUser, Env.ok, hb, hfind, hc]

/-- Witness for C7: concrete throwing environments produce the generic 500
for both handlers (a plain two-field login body included), a missing-field
request keeps its specific 400 even under `allThrow`, and the throw-free
environment produces only the expected statuses. -/
theorem unexpected_errors_give_500_witness :
    registerUser ⟨true, false, false, false, false⟩ 7 1000 [] wBody =
      (⟨500, RespBody.msg "Server Error during registration"⟩, []) ∧
    (registerUser ⟨false, false, false, false, true⟩ 7 1000 [] wBody).1 =
      ⟨500, RespBody.msg "Server Error during registration"⟩ ∧
    loginUser ⟨false, true, false, false, false⟩ 1000 [wUser]
      ⟨some "alice", some "pw123", none, none⟩ =
      ⟨500, RespBody.msg "Server Error during login"⟩ ∧
    loginUser ⟨false, false, false, true, false⟩ 1000 [wUser]
      ⟨some "alice", some "pw123", none, none⟩ =
      ⟨500, RespBody.msg "Server Error during login"⟩ ∧
    registerUser allThrow 7 1000 [] ⟨some "bob", some "pw", none, some "B"⟩ =
      (⟨400, RespBody.msg "All fields are required."⟩, []) ∧
    loginUser allThrow 1000 [] ⟨none, some "pw", none, none⟩ =
      ⟨400, RespBody.msg "Username and password are required."⟩ ∧
    ((registerUser Env.ok 7 1000 [] wBody).1.status = 200 ∨
      (registerUser Env.ok 7 1000 [] wBody).1.status = 400) ∧
    ((loginUser Env.ok 1000 [wUser] ⟨some "alice", some "pw123", none, none⟩).status = 200 ∨
      (loginUser Env.ok 1000 [wUser] ⟨some "alice", some "pw123", none, none⟩).status = 400 ∨
      (loginUser Env.ok 1000 [wUser] ⟨some "alice", some "pw123", none, none⟩).status = 404) :=
  ⟨(unexpected_errors_give_500 ⟨true, false, false, false, false⟩ 7 1000 [] wBody).1
      (by decide) (by decide) (by decide) (by decide) rfl,
   (unexpected_errors_give_500 ⟨false, false, false, false, true⟩ 7 1000 [] wBody).2.2.2.1
      (by decide) (by decide) (by decide) (by decide) rfl rfl rfl rfl (by decide),
   (unexpected_errors_give_500 ⟨false, true, false, false, false⟩ 1000 1000 [wUser]
      ⟨some "alice", some "pw123", none, none⟩).2.2.2.2.1 (by decide) (by decide) rfl,
   (unexpected_errors_give_500 ⟨false, false, false, true, false⟩ 1000 1000 [wUser]
      ⟨some "alice", some "pw123", none, none⟩).2.2.2.2.2.1 wUser (by decide) (by decide)
      rfl rfl (by decide),
   (unexpected_errors_give_500 allThrow 7 1000 []
      ⟨some "bob", some "pw", none, some "B"⟩).2.2.2.2.2.2.2.1 (by decide),
   (unexpected_errors_give_500 allThrow 1000 1000 []
      ⟨none, some "pw", none, none⟩).2.2.2.2.2.2.2.2.1 (by decide),
   (unexpected_errors_give_500 Env.ok 7 1000 [] wBody).2.2.2.2.2.2.2.2.2.1,
   (unexpected_errors_give_500 Env.ok 1000 1000 [wUser]
      ⟨some "alice", some "pw123", none, none⟩).2.2.2.2.2.2.2.2.2.2⟩

/-- C8: each client thunk first dispatches the loading action; on a resolved
HTTP call it dispatches the authenticated action carrying the returned
payload and then navigates once to the fixed landing route `/home` replacing
history; on a rejected HTTP call it dispatches the single undifferentiated
failure action and performs no navigation. -/
theorem client_dispatch_flow (d : RespBody) :
    logIn (some d) = ([ClientAction.authStart, ClientAction.authSuccess d],
      [⟨"/home", true⟩]) ∧
    logIn none = ([ClientAction.authStart, ClientAction.authFail], []) ∧
    signUp (some d) = ([ClientAction.authStart, ClientAction.authSuccess d],
      [⟨"/home", true⟩]) ∧
    signUp none = ([ClientAction.authStart, ClientAction.authFail], []) :=
  ⟨rfl, rfl, rfl, rfl⟩

/-- C9: whenever `registerUser` answers with a non-200 status and the failure
arose before the save completed (every case except a token-signing throw,
which happens after persistence), the user collection is unchanged. -/
theorem registerUser_error_store_unchanged (env : Env) (salt now : Nat)
    (store : List User) (body : ReqBody)
    (hsign : env.signThrows = false)
    (herr : (registerUser env salt now store body).1.status ≠ 200) :
    (registerUser env salt now store body).2 = store := by
  cases hb : (truthy body.username && truthy body.password &&
      truthy body.firstname && truthy body.lastname) with
  | false => simp [registerUser, hb]
  | true =>
    cases hh : env.hashThrows with
    | true => simp [registerUser, hb, hh]
    | false =>
      cases hf : env.findThrows with
      | true => simp [registerUser, hb, hh, hf]
      | false =>
        cases hfind : UserModel.findOne store (body.username.getD "") with
        | some u => simp [registerUser, hb, hh, hf, hfind]
        | none =>
          cases hs : env.saveThrows with
          | true => simp [registerUser, hb, hh, hf, hfind, hs]
          | false =>
            exfalso
            exact herr (by simp [registerUser, hb, hh, hf, hfind, hs, hsign])

/-- Witness for C9: a registration failing at the store lookup leaves the
empty collection empty. -/
theorem registerUser_error_store_unchanged_witness :
    (registerUser ⟨false, true, false, false, false⟩ 7 1000 [] wBody).2 = [] :=
  registerUser_error_store_unchanged ⟨false, true, false, false, false⟩ 7 1000 []
    wBody rfl (by decide)

/-- C10: presence is tested by JavaScript truthiness, so a field supplied as
the empty string is treated exactly as if it were absent: the handlers return
the missing-field 400 response under every environment, and behave
identically to the same request with that field removed. -/
theorem empty_string_field_is_missing (env : Env) (salt now : Nat)
    (store : List User) (body : ReqBody) :
    (body.username = some "" ∨ body.password = some "" ∨
        body.firstname = some "" ∨ body.lastname = some "" →
      registerUser env salt now store body =
        (⟨400, RespBody.msg "All fields are required."⟩, store)) ∧
    (body.username = some "" ∨ body.password = some "" →
      loginUser env now store body =
        ⟨400, RespBody.msg "Username and password are required."⟩) ∧
    (body.username = some "" →
      registerUser env salt now store body =
        registerUser env salt now store
          { username := none, password := body.password,
            firstname := body.firstname, lastname := body.lastname } ∧
      loginUser env now store body =
        loginUser env now store
          { username := none, password := body.password,
            firstname := body.firstname, lastname := body.lastname }) ∧
    (body.password = some "" →
      registerUser env salt now store body =
        registerUser env salt now store
          { username := body.username, password := none,
            firstname := body.firstname, lastname := body.lastname } ∧
      loginUser env now store body =
        loginUser env now store
          { username := body.username, password := none,
            firstname := body.firstname, lastname := body.lastname }) := by
  have htr : truthy (some "") = false := rfl
  have hie : "".isEmpty = true := rfl
  refine ⟨?_, ?_, ?_, ?_⟩
  · intro hmiss
    rcases hmiss with h | h | h | h <;> simp [registerUser, h, htr]
  · intro hmiss
    rcases hmiss with h | h <;> simp [loginUser, h, htr]
  · intro h
    constructor
    · simp [registerUser, h, htr, hie, truthy]
    · simp [loginUser, h, htr, hie, truthy]
  · intro h
    constructor
    · simp [registerUser, h, htr, hie, truthy]
    · simp [loginUser, h, htr, hie, truthy]

/-- Witness for C10: an empty-string password is rejected as missing and
behaves exactly like an absent password. -/
theorem empty_string_field_is_missing_witness :
    registerUser allThrow 7 1000 [wUser] ⟨some "alice", some "", some "A", some "L"⟩ =
      (⟨400, RespBody.msg "All fields are required."⟩, [wUser]) ∧
    loginUser allThrow 1000 [wUser] ⟨some "alice", some "", none, none⟩ =
      ⟨400, RespBody.msg "Username and password are required."⟩ ∧
    registerUser allThrow 7 1000 [wUser] ⟨some "alice", some "", some "A", some "L"⟩ =
      registerUser allThrow 7 1000 [wUser] ⟨some "alice", none, some "A", some "L"⟩ :=
  ⟨(empty_string_field_is_missing allThrow 7 1000 [wUser]
      ⟨some "alice", some "", some "A", some "L"⟩).1 (Or.inr (Or.inl rfl)),
   (empty_string_field_is_missing allThrow 1000 1000 [wUser]
      ⟨some "alice", some "", none, none⟩).2.1 (Or.inr rfl),
   ((empty_string_field_is_missing allThrow 7 1000 [wUser]
      ⟨some "alice", some "", some "A", some "L"⟩).2.2.2 rfl).1⟩
